import Mathlib

/-!
Verification of the vase-designer parametric surface generator.

The definitions below are a shallow embedding of the TypeScript source:
  * `getWaveFunction` and the four waveforms come from
    `src/components/Vase.tsx` (the canonical version with tab extrusion).
    JavaScript's `%` operator on numbers is truncated division remainder,
    embedded here as `jsMod` built on `jsTrunc`.
  * machine floating point is embedded as the real numbers `ℝ`.
-/

open Real

namespace VaseDesigner

/-- Wave type enumeration: `"sine" | "square" | "triangle" | "sawtooth"`. -/
inductive WaveType where
  | sine
  | square
  | triangle
  | sawtooth
deriving DecidableEq

/-- JavaScript truncation toward zero (`Math.trunc`), as used implicitly by
the `%` operator on numbers. -/
noncomputable def jsTrunc (x : ℝ) : ℝ :=
  if 0 ≤ x then (⌊x⌋ : ℝ) else (⌈x⌉ : ℝ)

/-- JavaScript `x % m`: remainder of truncated division. -/
noncomputable def jsMod (x m : ℝ) : ℝ := x - m * jsTrunc (x / m)

/-- The normalization `((x % (2 * Math.PI)) + 2 * Math.PI) % (2 * Math.PI)`
used by the square, triangle and sawtooth waveforms in `getWaveFunction`. -/
noncomputable def normalizeAngle (x : ℝ) : ℝ :=
  jsMod (jsMod x (2 * π) + 2 * π) (2 * π)

/-- Square wave from `getWaveFunction`: `t < Math.PI ? 1 : -1` on the
normalized angle. -/
noncomputable def squareWave (x : ℝ) : ℝ :=
  if normalizeAngle x < π then 1 else -1

/-- Triangle wave from `getWaveFunction`:
`2 * Math.abs(2 * (t / (2π) - Math.floor(t / (2π) + 0.5)))`. -/
noncomputable def triangleWave (x : ℝ) : ℝ :=
  2 * |2 * (normalizeAngle x / (2 * π) - (⌊normalizeAngle x / (2 * π) + 0.5⌋ : ℝ))|

/-- Sawtooth wave from `getWaveFunction`: `t / Math.PI - 1`. -/
noncomputable def sawtoothWave (x : ℝ) : ℝ := normalizeAngle x / π - 1

/-- `getWaveFunction` from `src/components/Vase.tsx`. -/
noncomputable def getWaveFunction : WaveType → ℝ → ℝ
  | WaveType.sine => Real.sin
  | WaveType.square => squareWave
  | WaveType.triangle => triangleWave
  | WaveType.sawtooth => sawtoothWave

lemma jsTrunc_of_nonneg {x : ℝ} (hx : 0 ≤ x) : jsTrunc x = (⌊x⌋ : ℝ) :=
  if_pos hx

lemma jsTrunc_eq_floor_or (x : ℝ) :
    jsTrunc x = (⌊x⌋ : ℝ) ∨ jsTrunc x = (⌊x⌋ : ℝ) + 1 := by
  unfold jsTrunc
  split
  · exact Or.inl rfl
  · have h1 : (⌊x⌋ : ℤ) ≤ ⌈x⌉ := Int.floor_le_ceil x
    have h2 : (⌈x⌉ : ℤ) ≤ ⌊x⌋ + 1 := Int.ceil_le_floor_add_one x
    have h3 : (⌈x⌉ : ℤ) = ⌊x⌋ ∨ (⌈x⌉ : ℤ) = ⌊x⌋ + 1 := by omega
    rcases h3 with h | h
    · exact Or.inl (by exact_mod_cast congrArg (Int.cast : ℤ → ℝ) h)
    · refine Or.inr ?_
      rw [show ((⌈x⌉ : ℤ) : ℝ) = ((⌊x⌋ + 1 : ℤ) : ℝ) from by exact_mod_cast h]
      push_cast
      ring

lemma jsMod_of_nonneg {x m : ℝ} (hx : 0 ≤ x) (hm : 0 < m) :
    jsMod x m = m * Int.fract (x / m) := by
  unfold jsMod
  rw [jsTrunc_of_nonneg (div_nonneg hx hm.le)]
  simp only [Int.fract]
  field_simp

lemma jsMod_cases {x m : ℝ} (hm : 0 < m) :
    jsMod x m = m * Int.fract (x / m) ∨ jsMod x m = m * Int.fract (x / m) - m := by
  unfold jsMod
  rcases jsTrunc_eq_floor_or (x / m) with h | h <;> rw [h] <;> simp only [Int.fract]
  · left
    field_simp
  · right
    field_simp
    ring

/-- The double-modulo normalization agrees with mathematical reduction into
the interval `[0, 2π)`. -/
lemma normalizeAngle_eq (x : ℝ) :
    normalizeAngle x = 2 * π * Int.fract (x / (2 * π)) := by
  have hm : (0 : ℝ) < 2 * π := by positivity
  have hf0 : 0 ≤ Int.fract (x / (2 * π)) := Int.fract_nonneg _
  unfold normalizeAngle
  rcases jsMod_cases (x := x) hm with h | h <;> rw [h]
  · have hnn : 0 ≤ 2 * π * Int.fract (x / (2 * π)) + 2 * π := by nlinarith
    rw [jsMod_of_nonneg hnn hm]
    have hdiv : (2 * π * Int.fract (x / (2 * π)) + 2 * π) / (2 * π)
        = Int.fract (x / (2 * π)) + 1 := by
      field_simp
      ring
    rw [hdiv, Int.fract_add_one, Int.fract_fract]
  · have hsimp : 2 * π * Int.fract (x / (2 * π)) - 2 * π + 2 * π
        = 2 * π * Int.fract (x / (2 * π)) := by ring
    rw [hsimp]
    have hnn : 0 ≤ 2 * π * Int.fract (x / (2 * π)) := by nlinarith
    rw [jsMod_of_nonneg hnn hm]
    have hdiv : 2 * π * Int.fract (x / (2 * π)) / (2 * π) = Int.fract (x / (2 * π)) := by
      rw [mul_comm, mul_div_assoc, div_self (by positivity : (2 : ℝ) * π ≠ 0), mul_one]
    rw [hdiv, Int.fract_fract]

lemma normalizeAngle_nonneg (x : ℝ) : 0 ≤ normalizeAngle x := by
  rw [normalizeAngle_eq]
  have := Int.fract_nonneg (x / (2 * π))
  nlinarith [Real.pi_pos]

lemma normalizeAngle_lt_two_pi (x : ℝ) : normalizeAngle x < 2 * π := by
  rw [normalizeAngle_eq]
  have := Int.fract_lt_one (x / (2 * π))
  nlinarith [Real.pi_pos]

lemma normalizeAngle_add_two_pi (x : ℝ) :
    normalizeAngle (x + 2 * π) = normalizeAngle x := by
  rw [normalizeAngle_eq, normalizeAngle_eq]
  have hne : (2 : ℝ) * π ≠ 0 := by positivity
  have hdiv : (x + 2 * π) / (2 * π) = x / (2 * π) + 1 := by field_simp
  rw [hdiv, Int.fract_add_one]

lemma normalizeAngle_of_mem {x : ℝ} (h0 : 0 ≤ x) (h1 : x < 2 * π) :
    normalizeAngle x = x := by
  have hm : (0 : ℝ) < 2 * π := by positivity
  rw [normalizeAngle_eq]
  have hfr : Int.fract (x / (2 * π)) = x / (2 * π) := by
    rw [Int.fract_eq_self]
    constructor
    · exact div_nonneg h0 hm.le
    · rw [div_lt_one hm]
      exact h1
  rw [hfr]
  field_simp

lemma normalizeAngle_zero : normalizeAngle 0 = 0 :=
  normalizeAngle_of_mem le_rfl (by positivity)

lemma normalizeAngle_pi : normalizeAngle π = π :=
  normalizeAngle_of_mem Real.pi_pos.le (by nlinarith [Real.pi_pos])

/-! ### Data model (src/store/vaseStore.ts) -/

/-- Twist rate enumeration: `"linear" | "exponential"`. -/
inductive TwistRate where
  | linear
  | exponential
deriving DecidableEq

/-- Twist direction enumeration: `"clockwise" | "counterclockwise"`. -/
inductive TwistDirection where
  | clockwise
  | counterclockwise
deriving DecidableEq

/-- Surface noise type enumeration: `"none" | "perlin" | "simplex" | "voronoi"`. -/
inductive NoiseType where
  | none
  | perlin
  | simplex
  | voronoi
deriving DecidableEq

/-- The `VaseParameters` record from `src/store/vaseStore.ts`. -/
structure VaseParameters where
  height : ℝ
  topDiameter : ℝ
  bottomDiameter : ℝ
  topTabHeight : ℝ
  bottomTabHeight : ℝ
  radialWaveType : WaveType
  radialFrequency : ℝ
  radialAmplitude : ℝ
  verticalWaveType : WaveType
  verticalFrequency : ℝ
  verticalAmplitude : ℝ
  twistAngle : ℝ
  twistRate : TwistRate
  twistDirection : TwistDirection
  surfaceNoiseType : NoiseType
  surfaceNoiseScale : ℝ
  surfaceNoiseAmount : ℝ
  radialSegments : ℕ
  verticalSegments : ℕ
  radiusFormula : String
  verticalDeformationFormula : String

/-! ### Formula evaluator (mathjs compile/evaluate, used by Vase.tsx)

A compiled formula is embedded by its evaluation semantics: a function from
the named-variable scope to `Option ℝ`, where `Option.none` models a thrown
evaluation error.
-/

/-- The scope record passed to formulas at one grid point. -/
structure Scope where
  r : ℝ
  y : ℝ
  height : ℝ
  angle : ℝ
  pi : ℝ

/-- A user formula, embedded by its mathjs evaluation semantics. -/
def Formula : Type := Scope → Option ℝ

/-- The validation scope `{r: 1, y: 1, height: 1, angle: 1, pi: Math.PI}`
used by `compileFormula` in `src/components/Vase.tsx`. -/
noncomputable def testScope : Scope :=
  { r := 1, y := 1, height := 1, angle := 1, pi := π }

/-- `compileFormula` from `src/components/Vase.tsx`: evaluate the candidate
against the test scope; on a thrown error, compile the default instead. -/
noncomputable def compileFormula (f fallback : Formula) : Formula :=
  match f testScope with
  | some _ => f
  | Option.none => fallback

/-- The documented default radius formula `"r"`. -/
def defaultRadiusFormula : Formula := fun s => some s.r

/-- The documented default vertical deformation formula `"y"`. -/
def defaultVerticalFormula : Formula := fun s => some s.y

/-! ### Parametric surface builder (src/components/Vase.tsx, geometry callback) -/

/-- `THREE.MathUtils.lerp(x, y, t) = (1 - t) * x + t * y`. -/
noncomputable def lerp (x y t : ℝ) : ℝ := (1 - t) * x + t * y

/-- Base radius: `THREE.MathUtils.lerp(bottomDiameter / 2, topDiameter / 2, heightFactor)`. -/
noncomputable def baseRadius (p : VaseParameters) (v : ℝ) : ℝ :=
  lerp (p.bottomDiameter / 2) (p.topDiameter / 2) v

/-- Radius after the radial wave:
`baseRadius + radialAmplitude * waveFunction(angle * radialFrequency)`
with `angle = u * Math.PI * 2`. -/
noncomputable def waveRadius (p : VaseParameters) (u v : ℝ) : ℝ :=
  baseRadius p v + p.radialAmplitude * getWaveFunction p.radialWaveType (u * π * 2 * p.radialFrequency)

/-- Vertical wave offset:
`verticalAmplitude * verticalWaveFunction(heightFactor * verticalFrequency * Math.PI * 2)`. -/
noncomputable def verticalOffset (p : VaseParameters) (v : ℝ) : ℝ :=
  p.verticalAmplitude * getWaveFunction p.verticalWaveType (v * p.verticalFrequency * π * 2)

/-- `twistFactor = twistDirection === "clockwise" ? 1 : -1`. -/
def twistFactor (p : VaseParameters) : ℝ :=
  match p.twistDirection with
  | TwistDirection.clockwise => 1
  | TwistDirection.counterclockwise => -1

/-- `twistAmount`: `heightFactor * twistAngle` for linear rate,
`Math.pow(heightFactor, 2) * twistAngle` for exponential rate. -/
noncomputable def twistAmount (p : VaseParameters) (v : ℝ) : ℝ :=
  match p.twistRate with
  | TwistRate.linear => v * p.twistAngle
  | TwistRate.exponential => v ^ 2 * p.twistAngle

/-- `twistedAngle = angle + (twistFactor * twistAmount * Math.PI) / 180`. -/
noncomputable def twistedAngle (p : VaseParameters) (u v : ℝ) : ℝ :=
  u * π * 2 + twistFactor p * twistAmount p v * π / 180

/-- Surface noise offset; the sampler returned by `createNoise2D()` is an
explicit argument `noise2D`. When `surfaceNoiseType` is `"none"`, no sampler
is constructed and the offset is 0. -/
noncomputable def noiseOffset (p : VaseParameters) (noise2D : ℝ → ℝ → ℝ) (u v : ℝ) : ℝ :=
  if p.surfaceNoiseType = NoiseType.none then 0
  else noise2D (u * p.surfaceNoiseScale * 10) (v * p.surfaceNoiseScale * 10) * p.surfaceNoiseAmount

/-- The scope built at one grid point in the geometry callback:
`{r: radius, y: (height / 2) * heightFactor, height: height / 2, angle: twistedAngle, pi: Math.PI}`. -/
noncomputable def vaseScope (p : VaseParameters) (u v : ℝ) : Scope where
  r := waveRadius p u v
  y := p.height / 2 * v
  height := p.height / 2
  angle := twistedAngle p u v
  pi := π

/-- The per-point callback of the parametric surface, including the
try/catch fallback. The JavaScript `radius` variable is reassigned by the
radius-formula evaluation before the vertical formula runs, so a vertical
formula failure falls back with the already-overridden radius. -/
noncomputable def vasePoint (p : VaseParameters) (rf vf : Formula)
    (noise2D : ℝ → ℝ → ℝ) (u v : ℝ) : ℝ × ℝ × ℝ :=
  match rf (vaseScope p u v) with
  | Option.none =>
      (waveRadius p u v * Real.cos (twistedAngle p u v),
       p.height / 2 * v + verticalOffset p v,
       waveRadius p u v * Real.sin (twistedAngle p u v))
  | some r2 =>
      match vf (vaseScope p u v) with
      | Option.none =>
          (r2 * Real.cos (twistedAngle p u v),
           p.height / 2 * v + verticalOffset p v,
           r2 * Real.sin (twistedAngle p u v))
      | some vd =>
          ((r2 + noiseOffset p noise2D u v) * Real.cos (twistedAngle p u v),
           p.height / 2 * v + vd + verticalOffset p v,
           (r2 + noiseOffset p noise2D u v) * Real.sin (twistedAngle p u v))

/-- The vertex grid produced by `ParametricGeometry(callback, radialSegments,
verticalSegments)`: rows j = 0..verticalSegments with v = j/verticalSegments,
columns i = 0..radialSegments with u = i/radialSegments. -/
noncomputable def vaseGrid (p : VaseParameters) (rf vf : Formula)
    (noise2D : ℝ → ℝ → ℝ) : List (ℝ × ℝ × ℝ) :=
  (List.range (p.verticalSegments + 1)).flatMap fun j =>
    (List.range (p.radialSegments + 1)).map fun i =>
      vasePoint p rf vf noise2D ((i : ℝ) / (p.radialSegments : ℝ)) ((j : ℝ) / (p.verticalSegments : ℝ))

/-! ### Tab extruder (src/components/Vase.tsx, lines 139-223) -/

/-- The vertices appended for the bottom tab: the first `verticesPerLayer`
original vertices, translated down by `bottomTabHeight` along y. -/
noncomputable def bottomTabVertices (positions : List (ℝ × ℝ × ℝ))
    (verticesPerLayer : ℕ) (bottomTabHeight : ℝ) : List (ℝ × ℝ × ℝ) :=
  (List.range verticesPerLayer).map fun i =>
    ((positions.getD i (0, 0, 0)).1,
     (positions.getD i (0, 0, 0)).2.1 - bottomTabHeight,
     (positions.getD i (0, 0, 0)).2.2)

/-- The index triples appended for the bottom tab: for each radial segment i,
the two triangles (a, b, c) and (c, d, a) with a = i, b = i + 1,
c = bottomVertexStart + i + 1, d = bottomVertexStart + i. -/
def bottomTabIndices (bottomVertexStart radialSegments : ℕ) : List ℕ :=
  (List.range radialSegments).flatMap fun i =>
    [i, i + 1, bottomVertexStart + i + 1,
     bottomVertexStart + i + 1, bottomVertexStart + i, i]

/-- The vertices appended for the top tab: the original vertices starting at
`topLayerStart`, translated up by `topTabHeight` along y. -/
noncomputable def topTabVertices (positions : List (ℝ × ℝ × ℝ))
    (topLayerStart verticesPerLayer : ℕ) (topTabHeight : ℝ) : List (ℝ × ℝ × ℝ) :=
  (List.range verticesPerLayer).map fun i =>
    ((positions.getD (topLayerStart + i) (0, 0, 0)).1,
     (positions.getD (topLayerStart + i) (0, 0, 0)).2.1 + topTabHeight,
     (positions.getD (topLayerStart + i) (0, 0, 0)).2.2)

/-- The index triples appended for the top tab: for each radial segment i,
the two triangles (a, c, b) and (c, a, d) with a = topLayerStart + i,
b = topLayerStart + i + 1, c = topVertexStart + i + 1, d = topVertexStart + i. -/
def topTabIndices (topLayerStart topVertexStart radialSegments : ℕ) : List ℕ :=
  (List.range radialSegments).flatMap fun i =>
    [topLayerStart + i, topVertexStart + i + 1, topLayerStart + i + 1,
     topVertexStart + i + 1, topLayerStart + i, topVertexStart + i]

/-- The tab extrusion step: when a tab height is positive, copy the original
buffers and append the extruded ring vertices and connecting triangles. The
bottom ring is read from the first `radialSegments + 1` original vertices and
the top ring from offset `(radialSegments + 1) * verticalSegments`. -/
noncomputable def addTabs (positions : List (ℝ × ℝ × ℝ)) (indices : List ℕ)
    (radialSegments verticalSegments : ℕ) (topTabHeight bottomTabHeight : ℝ) :
    List (ℝ × ℝ × ℝ) × List ℕ :=
  if topTabHeight > 0 ∨ bottomTabHeight > 0 then
    let verticesPerLayer := radialSegments + 1
    let pos1 := if bottomTabHeight > 0
      then positions ++ bottomTabVertices positions verticesPerLayer bottomTabHeight
      else positions
    let idx1 := if bottomTabHeight > 0
      then indices ++ bottomTabIndices positions.length radialSegments
      else indices
    let pos2 := if topTabHeight > 0
      then pos1 ++ topTabVertices positions (verticesPerLayer * verticalSegments) verticesPerLayer topTabHeight
      else pos1
    let idx2 := if topTabHeight > 0
      then idx1 ++ topTabIndices (verticesPerLayer * verticalSegments) pos1.length radialSegments
      else idx1
    (pos2, idx2)
  else (positions, indices)

/-! ### Configuration store (src/store/vaseStore.ts)

`exportConfiguration` JSON-encodes the current parameters;
`importConfiguration` JSON-parses its argument and spreads the result over
`defaultParameters`. The JSON text layer is external (`JSON.stringify` /
`JSON.parse`); it is embedded at the parsed-value level: a successfully
parsed configuration is a record of optional fields (absent fields are
those the JSON text does not mention), and a parse failure is
`Option.none`.
-/

/-- `defaultParameters` from `src/store/vaseStore.ts`. -/
noncomputable def defaultParameters : VaseParameters where
  height := 120
  topDiameter := 100
  bottomDiameter := 120
  topTabHeight := 0
  bottomTabHeight := 0
  radialWaveType := WaveType.sine
  radialFrequency := 6
  radialAmplitude := 3
  verticalWaveType := WaveType.sine
  verticalFrequency := 1
  verticalAmplitude := 0
  twistAngle := 0
  twistRate := TwistRate.linear
  twistDirection := TwistDirection.clockwise
  surfaceNoiseType := NoiseType.none
  surfaceNoiseScale := 1
  surfaceNoiseAmount := 0
  radialSegments := 128
  verticalSegments := 128
  radiusFormula := "r"
  verticalDeformationFormula := "y"

/-- A parsed configuration object: each known field is present or absent. -/
structure VaseParametersPatch where
  height : Option ℝ
  topDiameter : Option ℝ
  bottomDiameter : Option ℝ
  topTabHeight : Option ℝ
  bottomTabHeight : Option ℝ
  radialWaveType : Option WaveType
  radialFrequency : Option ℝ
  radialAmplitude : Option ℝ
  verticalWaveType : Option WaveType
  verticalFrequency : Option ℝ
  verticalAmplitude : Option ℝ
  twistAngle : Option ℝ
  twistRate : Option TwistRate
  twistDirection : Option TwistDirection
  surfaceNoiseType : Option NoiseType
  surfaceNoiseScale : Option ℝ
  surfaceNoiseAmount : Option ℝ
  radialSegments : Option ℕ
  verticalSegments : Option ℕ
  radiusFormula : Option String
  verticalDeformationFormula : Option String

/-- The object spread `{ ...base, ...q }`: fields present in `q` override
the corresponding fields of `base`. -/
def mergePatch (base : VaseParameters) (q : VaseParametersPatch) : VaseParameters where
  height := q.height.getD base.height
  topDiameter := q.topDiameter.getD base.topDiameter
  bottomDiameter := q.bottomDiameter.getD base.bottomDiameter
  topTabHeight := q.topTabHeight.getD base.topTabHeight
  bottomTabHeight := q.bottomTabHeight.getD base.bottomTabHeight
  radialWaveType := q.radialWaveType.getD base.radialWaveType
  radialFrequency := q.radialFrequency.getD base.radialFrequency
  radialAmplitude := q.radialAmplitude.getD base.radialAmplitude
  verticalWaveType := q.verticalWaveType.getD base.verticalWaveType
  verticalFrequency := q.verticalFrequency.getD base.verticalFrequency
  verticalAmplitude := q.verticalAmplitude.getD base.verticalAmplitude
  twistAngle := q.twistAngle.getD base.twistAngle
  twistRate := q.twistRate.getD base.twistRate
  twistDirection := q.twistDirection.getD base.twistDirection
  surfaceNoiseType := q.surfaceNoiseType.getD base.surfaceNoiseType
  surfaceNoiseScale := q.surfaceNoiseScale.getD base.surfaceNoiseScale
  surfaceNoiseAmount := q.surfaceNoiseAmount.getD base.surfaceNoiseAmount
  radialSegments := q.radialSegments.getD base.radialSegments
  verticalSegments := q.verticalSegments.getD base.verticalSegments
  radiusFormula := q.radiusFormula.getD base.radiusFormula
  verticalDeformationFormula :=
    q.verticalDeformationFormula.getD base.verticalDeformationFormula

/-- `exportConfiguration`: the JSON payload `JSON.stringify(get().parameters)`
written as a parsed configuration in which every field is present. (The
timestamped download filename the store also returns carries no parameter
data and is not modeled.) -/
def exportConfiguration (p : VaseParameters) : VaseParametersPatch where
  height := some p.height
  topDiameter := some p.topDiameter
  bottomDiameter := some p.bottomDiameter
  topTabHeight := some p.topTabHeight
  bottomTabHeight := some p.bottomTabHeight
  radialWaveType := some p.radialWaveType
  radialFrequency := some p.radialFrequency
  radialAmplitude := some p.radialAmplitude
  verticalWaveType := some p.verticalWaveType
  verticalFrequency := some p.verticalFrequency
  verticalAmplitude := some p.verticalAmplitude
  twistAngle := some p.twistAngle
  twistRate := some p.twistRate
  twistDirection := some p.twistDirection
  surfaceNoiseType := some p.surfaceNoiseType
  surfaceNoiseScale := some p.surfaceNoiseScale
  surfaceNoiseAmount := some p.surfaceNoiseAmount
  radialSegments := some p.radialSegments
  verticalSegments := some p.verticalSegments
  radiusFormula := some p.radiusFormula
  verticalDeformationFormula := some p.verticalDeformationFormula

/-- `importConfiguration`: on a parse failure (`Option.none`) the catch
branch only logs, leaving the store's parameters unchanged; on success the
parsed fields are spread over `defaultParameters`. -/
noncomputable def importConfiguration (parsed : Option VaseParametersPatch)
    (current : VaseParameters) : VaseParameters :=
  match parsed with
  | Option.none => current
  | some q => mergePatch defaultParameters q

/-! ### Concrete inputs used by witnesses and counterexamples -/

/-- A plain cylinder parameter set: all amplitudes, noise and twist zero,
identity formulas, height 2, both diameters 2. -/
noncomputable def sampleParams : VaseParameters where
  height := 2
  topDiameter := 2
  bottomDiameter := 2
  topTabHeight := 0
  bottomTabHeight := 0
  radialWaveType := WaveType.sine
  radialFrequency := 1
  radialAmplitude := 0
  verticalWaveType := WaveType.sine
  verticalFrequency := 1
  verticalAmplitude := 0
  twistAngle := 0
  twistRate := TwistRate.linear
  twistDirection := TwistDirection.clockwise
  surfaceNoiseType := NoiseType.none
  surfaceNoiseScale := 1
  surfaceNoiseAmount := 0
  radialSegments := 8
  verticalSegments := 1
  radiusFormula := "r"
  verticalDeformationFormula := "y"

/-- The sample cylinder with simplex surface noise of amount 1. -/
noncomputable def noisyParams : VaseParameters :=
  { sampleParams with
    surfaceNoiseType := NoiseType.simplex
    surfaceNoiseAmount := 1 }

/-- A formula that fails at every scope (models a formula whose evaluation
always throws). -/
def failingFormula : Formula := fun _ => Option.none

/-- A formula that succeeds everywhere and overrides the radius with r + 1. -/
def radiusPlusOneFormula : Formula := fun s => some (s.r + 1)

/-! ### Waveform claim theorems -/

/-- Claim C4: every one of the four waveform functions is periodic with
period 2π: for every waveform kind and every real x, f(x) = f(x + 2π), in
exact real arithmetic. -/
theorem waveFunction_periodic (ty : WaveType) (x : ℝ) :
    getWaveFunction ty (x + 2 * π) = getWaveFunction ty x := by
  cases ty
  · exact Real.sin_add_two_pi x
  · simp only [getWaveFunction, squareWave, normalizeAngle_add_two_pi]
  · simp only [getWaveFunction, triangleWave, normalizeAngle_add_two_pi]
  · simp only [getWaveFunction, sawtoothWave, normalizeAngle_add_two_pi]

/-- Claim C3: the square waveform returns +1 exactly when x normalized into
[0, 2π) lies in [0, π), and -1 otherwise; in particular it never returns 0
for any input. -/
theorem squareWave_branch_spec (x : ℝ) :
    0 ≤ normalizeAngle x ∧ normalizeAngle x < 2 * π ∧
    (normalizeAngle x < π → getWaveFunction WaveType.square x = 1) ∧
    (π ≤ normalizeAngle x → getWaveFunction WaveType.square x = -1) ∧
    getWaveFunction WaveType.square x ≠ 0 := by
  refine ⟨normalizeAngle_nonneg x, normalizeAngle_lt_two_pi x, ?_, ?_, ?_⟩
  · intro h
    simp [getWaveFunction, squareWave, h]
  · intro h
    simp [getWaveFunction, squareWave, not_lt.mpr h]
  · simp only [getWaveFunction, squareWave]
    split <;> norm_num

/-- Witness for C3: the square wave is +1 at x = 0 and -1 at x = π, the two
boundary inputs where the superseded sign(sin(x)) variant returned 0. -/
theorem squareWave_branch_spec_witness :
    getWaveFunction WaveType.square 0 = 1 ∧ getWaveFunction WaveType.square π = -1 :=
  ⟨(squareWave_branch_spec 0).2.2.1 (by rw [normalizeAngle_zero]; exact Real.pi_pos),
   (squareWave_branch_spec π).2.2.2.1 (by rw [normalizeAngle_pi])⟩

/-- Counterexample to claim C2: the triangle waveform evaluates to 2 at
x = π, which lies outside the closed interval [-1, 1]. -/
theorem triangleWave_pi_eq_two :
    getWaveFunction WaveType.triangle π = 2 ∧
    ¬ |getWaveFunction WaveType.triangle π| ≤ 1 := by
  have hπ : (2 : ℝ) * π ≠ 0 := by positivity
  have hhalf : π / (2 * π) = 0.5 := by
    rw [div_eq_iff hπ]
    ring
  have h2 : getWaveFunction WaveType.triangle π = 2 := by
    simp only [getWaveFunction, triangleWave, normalizeAngle_pi, hhalf]
    norm_num
  refine ⟨h2, ?_⟩
  rw [h2]
  norm_num

/-- Claim C2 (amended): the sine, square and sawtooth waveforms yield values
in [-1, 1] for every real input, while the triangle waveform yields values
in [0, 2]. -/
theorem waveFunction_bounds (x : ℝ) :
    |getWaveFunction WaveType.sine x| ≤ 1 ∧
    |getWaveFunction WaveType.square x| ≤ 1 ∧
    |getWaveFunction WaveType.sawtooth x| ≤ 1 ∧
    0 ≤ getWaveFunction WaveType.triangle x ∧
    getWaveFunction WaveType.triangle x ≤ 2 := by
  have h0 := normalizeAngle_nonneg x
  have h1 := normalizeAngle_lt_two_pi x
  have hp := Real.pi_pos
  refine ⟨?_, ?_, ?_, ?_, ?_⟩
  · exact abs_le.mpr ⟨Real.neg_one_le_sin x, Real.sin_le_one x⟩
  · simp only [getWaveFunction, squareWave]
    split <;> norm_num
  · simp only [getWaveFunction, sawtoothWave]
    have hle : normalizeAngle x / π ≤ 2 := by
      rw [div_le_iff₀ hp]
      linarith
    have hge : 0 ≤ normalizeAngle x / π := div_nonneg h0 hp.le
    exact abs_le.mpr ⟨by linarith, by linarith⟩
  · simp only [getWaveFunction, triangleWave]
    positivity
  · simp only [getWaveFunction, triangleWave]
    have hkey : normalizeAngle x / (2 * π) - (⌊normalizeAngle x / (2 * π) + 0.5⌋ : ℝ)
        = Int.fract (normalizeAngle x / (2 * π) + 0.5) - 0.5 := by
      simp only [Int.fract]
      ring
    rw [hkey]
    have hf0 := Int.fract_nonneg (normalizeAngle x / (2 * π) + 0.5)
    have hf1 := Int.fract_lt_one (normalizeAngle x / (2 * π) + 0.5)
    have habs : |2 * (Int.fract (normalizeAngle x / (2 * π) + 0.5) - 0.5)| ≤ 1 := by
      rw [abs_le]
      constructor <;> nlinarith
    linarith [habs]

/-! ### Surface builder claim theorems -/

lemma waveRadius_sampleParams (u v : ℝ) : waveRadius sampleParams u v = 1 := by
  simp only [waveRadius, baseRadius, lerp, sampleParams]
  ring

lemma waveRadius_noisyParams (u v : ℝ) : waveRadius noisyParams u v = 1 := by
  simp only [waveRadius, baseRadius, lerp, noisyParams, sampleParams]
  ring

lemma twistedAngle_sampleParams (v : ℝ) : twistedAngle sampleParams 0 v = 0 := by
  simp only [twistedAngle, twistFactor, twistAmount, sampleParams]
  ring

lemma twistedAngle_noisyParams (v : ℝ) : twistedAngle noisyParams 0 v = 0 := by
  simp only [twistedAngle, twistFactor, twistAmount, noisyParams, sampleParams]
  ring

lemma verticalOffset_sampleParams (v : ℝ) : verticalOffset sampleParams v = 0 := by
  simp only [verticalOffset, sampleParams]
  ring

lemma vaseGrid_length (p : VaseParameters) (rf vf : Formula) (noise2D : ℝ → ℝ → ℝ) :
    (vaseGrid p rf vf noise2D).length = (p.radialSegments + 1) * (p.verticalSegments + 1) := by
  simp [vaseGrid, List.length_flatMap, Function.comp_def, mul_comm]

/-- Claim C1 (amended): at every grid point the scope passed to both
compiled formulas is {r: post-wave radius, y: (height / 2) · heightFactor,
height: height / 2, angle: twistedAngle, pi: π}, and the
successful-evaluation vertical coordinate is
finalY = (height / 2) · heightFactor + verticalDef + verticalOffset
(half-height scaling, not full-height). -/
theorem vaseScope_spec (p : VaseParameters) (rf vf : Formula) (noise2D : ℝ → ℝ → ℝ)
    (u v r2 vd : ℝ) (hr : rf (vaseScope p u v) = some r2)
    (hv : vf (vaseScope p u v) = some vd) :
    (vaseScope p u v).r = waveRadius p u v ∧
    (vaseScope p u v).y = p.height / 2 * v ∧
    (vaseScope p u v).height = p.height / 2 ∧
    (vaseScope p u v).angle = twistedAngle p u v ∧
    (vaseScope p u v).pi = π ∧
    vasePoint p rf vf noise2D u v =
      ((r2 + noiseOffset p noise2D u v) * Real.cos (twistedAngle p u v),
       p.height / 2 * v + vd + verticalOffset p v,
       (r2 + noiseOffset p noise2D u v) * Real.sin (twistedAngle p u v)) := by
  refine ⟨rfl, rfl, rfl, rfl, rfl, ?_⟩
  simp only [vasePoint, hr, hv]

/-- Witness for the amended C1, at the sample cylinder with the default
formulas at grid point (0, 0). -/
theorem vaseScope_spec_witness :
    (vaseScope sampleParams 0 0).height = sampleParams.height / 2 :=
  (vaseScope_spec sampleParams defaultRadiusFormula defaultVerticalFormula
    (fun _ _ => 0) 0 0 (vaseScope sampleParams 0 0).r (vaseScope sampleParams 0 0).y
    rfl rfl).2.2.1

/-- Counterexample to claim C1 as stated: with height = 2 at the top of the
vase (heightFactor = 1), the scope receives y = 1 and height = 1, not the
full-height values y = height · heightFactor = 2 and height = 2. -/
theorem vaseScope_not_full_height :
    (vaseScope sampleParams 0 1).y = 1 ∧
    (vaseScope sampleParams 0 1).height = 1 ∧
    sampleParams.height = 2 ∧
    (vaseScope sampleParams 0 1).y ≠ sampleParams.height * 1 := by
  refine ⟨?_, ?_, rfl, ?_⟩ <;> simp only [vaseScope, sampleParams] <;> norm_num

/-- Claim C5 (amended): when the radius formula fails at a grid point, the
point falls back to the pre-formula radius, the base height plus the
vertical wave offset, and no noise offset; when the radius formula succeeds
with value r2 and the vertical formula fails, the fallback keeps the
already-overridden radius r2 (still with no noise offset). In every case the
generated grid has a position for all
(radialSegments + 1) · (verticalSegments + 1) points. -/
theorem vasePoint_fallback (p : VaseParameters) (rf vf : Formula)
    (noise2D : ℝ → ℝ → ℝ) (u v : ℝ) :
    (rf (vaseScope p u v) = Option.none →
      vasePoint p rf vf noise2D u v =
        (waveRadius p u v * Real.cos (twistedAngle p u v),
         p.height / 2 * v + verticalOffset p v,
         waveRadius p u v * Real.sin (twistedAngle p u v))) ∧
    (∀ r2 : ℝ, rf (vaseScope p u v) = some r2 → vf (vaseScope p u v) = Option.none →
      vasePoint p rf vf noise2D u v =
        (r2 * Real.cos (twistedAngle p u v),
         p.height / 2 * v + verticalOffset p v,
         r2 * Real.sin (twistedAngle p u v))) ∧
    (vaseGrid p rf vf noise2D).length = (p.radialSegments + 1) * (p.verticalSegments + 1) := by
  refine ⟨?_, ?_, vaseGrid_length p rf vf noise2D⟩
  · intro h
    simp only [vasePoint, h]
  · intro r2 hr hv
    simp only [vasePoint, hr, hv]

/-- Witness for the amended C5: with an always-failing radius formula at the
sample cylinder, grid point (0, 0) falls back to the pre-formula position. -/
theorem vasePoint_fallback_witness :
    vasePoint sampleParams failingFormula defaultVerticalFormula (fun _ _ => 0) 0 0 =
      (waveRadius sampleParams 0 0 * Real.cos (twistedAngle sampleParams 0 0),
       sampleParams.height / 2 * 0 + verticalOffset sampleParams 0,
       waveRadius sampleParams 0 0 * Real.sin (twistedAngle sampleParams 0 0)) :=
  (vasePoint_fallback sampleParams failingFormula defaultVerticalFormula
    (fun _ _ => 0) 0 0).1 rfl

/-- Counterexample to claim C5 as stated: with a radius formula r + 1 that
succeeds and a vertical formula that fails, the fallback position is not the
pre-formula geometric fallback — its x coordinate is 2, not the pre-formula
radius 1. -/
theorem vasePoint_fallback_overridden_radius :
    vasePoint sampleParams radiusPlusOneFormula failingFormula (fun _ _ => 0) 0 0 ≠
      (waveRadius sampleParams 0 0 * Real.cos (twistedAngle sampleParams 0 0),
       sampleParams.height / 2 * 0 + verticalOffset sampleParams 0,
       waveRadius sampleParams 0 0 * Real.sin (twistedAngle sampleParams 0 0)) := by
  have hw := waveRadius_sampleParams 0 0
  have ht := twistedAngle_sampleParams 0
  intro heq
  have h1 := congrArg Prod.fst heq
  simp only [vasePoint, radiusPlusOneFormula, failingFormula, vaseScope, hw, ht,
    Real.cos_zero, mul_one] at h1
  norm_num at h1

/-- Claim C6: when evaluating the candidate formula against the test scope
fails, compileFormula returns the compiled default, so every per-point
evaluation — and hence the whole generated mesh — is identical to the one
generated with the default formula. -/
theorem compileFormula_fallback (f fb : Formula) (h : f testScope = Option.none) :
    compileFormula f fb = fb ∧
    ∀ (p : VaseParameters) (vf : Formula) (noise2D : ℝ → ℝ → ℝ) (u v : ℝ),
      vasePoint p (compileFormula f fb) vf noise2D u v = vasePoint p fb vf noise2D u v ∧
      vaseGrid p (compileFormula f fb) vf noise2D = vaseGrid p fb vf noise2D := by
  have hc : compileFormula f fb = fb := by
    unfold compileFormula
    rw [h]
  exact ⟨hc, fun p vf n u v => ⟨by rw [hc], by rw [hc]⟩⟩

/-- Witness for C6: an always-failing candidate compiles to the documented
default radius formula `"r"`. -/
theorem compileFormula_fallback_witness :
    compileFormula failingFormula defaultRadiusFormula = defaultRadiusFormula :=
  (compileFormula_fallback failingFormula defaultRadiusFormula rfl).1

/-- Claim C10: with surfaceNoiseType = "none" the per-point surface function
is independent of the noise sampler, so two evaluations with identical
parameters and formulas agree at every grid point; with any other noise type
the position does depend on the sampler constructed per evaluation, so
two-run equality is not guaranteed. -/
theorem noise_determinism :
    (∀ (p : VaseParameters) (rf vf : Formula) (n1 n2 : ℝ → ℝ → ℝ) (u v : ℝ),
        p.surfaceNoiseType = NoiseType.none →
        vasePoint p rf vf n1 u v = vasePoint p rf vf n2 u v) ∧
    (∃ (p : VaseParameters) (rf vf : Formula) (n1 n2 : ℝ → ℝ → ℝ) (u v : ℝ),
        p.surfaceNoiseType ≠ NoiseType.none ∧
        vasePoint p rf vf n1 u v ≠ vasePoint p rf vf n2 u v) := by
  constructor
  · intro p rf vf n1 n2 u v h
    have hn : ∀ n : ℝ → ℝ → ℝ, noiseOffset p n u v = 0 := fun n => by
      simp [noiseOffset, h]
    simp only [vasePoint, hn]
  · refine ⟨noisyParams, defaultRadiusFormula, defaultVerticalFormula,
      (fun _ _ => 0), (fun _ _ => 1), 0, 0, ?_, ?_⟩
    · simp [noisyParams, sampleParams]
    · have hw := waveRadius_noisyParams 0 0
      have ht := twistedAngle_noisyParams 0
      have hn1 : noiseOffset noisyParams (fun _ _ => 0) 0 0 = 0 := by
        simp [noiseOffset, noisyParams, sampleParams]
      have hn2 : noiseOffset noisyParams (fun _ _ => 1) 0 0 = 1 := by
        simp [noiseOffset, noisyParams, sampleParams]
      intro heq
      have h1 := congrArg Prod.fst heq
      simp only [vasePoint, defaultRadiusFormula, defaultVerticalFormula, vaseScope,
        hw, ht, hn1, hn2, Real.cos_zero, mul_one] at h1
      norm_num at h1

/-- Witness for C10: at the noise-free sample cylinder, two different noise
samplers produce the same position at grid point (0, 0). -/
theorem noise_determinism_witness :
    vasePoint sampleParams defaultRadiusFormula defaultVerticalFormula (fun _ _ => 0) 0 0 =
      vasePoint sampleParams defaultRadiusFormula defaultVerticalFormula (fun _ _ => 1) 0 0 :=
  noise_determinism.1 sampleParams defaultRadiusFormula defaultVerticalFormula
    (fun _ _ => 0) (fun _ _ => 1) 0 0 rfl

/-! ### Tab extruder claim theorem -/

lemma bottomTabVertices_length (positions : List (ℝ × ℝ × ℝ)) (n : ℕ) (h : ℝ) :
    (bottomTabVertices positions n h).length = n := by
  simp [bottomTabVertices]

lemma bottomTabIndices_length (s n : ℕ) : (bottomTabIndices s n).length = 6 * n := by
  simp [bottomTabIndices, List.length_flatMap, Function.comp_def, List.sum_replicate,
    smul_eq_mul, mul_comm]

/-- Claim C7: tab extrusion with bottomTabHeight = 10, topTabHeight = 0 and
radialSegments = 8 appends exactly 9 new vertices — the bottom ring of
radialSegments + 1 vertices translated down by 10 along y with x and z
unchanged — and exactly 16 new triangles (48 indices, two triangles per
radial segment), while the original vertices and triangle indices are
copied unchanged as a prefix of the new buffers. -/
theorem addTabs_bottom_spec (positions : List (ℝ × ℝ × ℝ)) (indices : List ℕ)
    (verticalSegments : ℕ) :
    (addTabs positions indices 8 verticalSegments 0 10).1.length = positions.length + 9 ∧
    (addTabs positions indices 8 verticalSegments 0 10).2.length = indices.length + 3 * 16 ∧
    (addTabs positions indices 8 verticalSegments 0 10).1.take positions.length = positions ∧
    (addTabs positions indices 8 verticalSegments 0 10).2.take indices.length = indices ∧
    (addTabs positions indices 8 verticalSegments 0 10).1.drop positions.length =
      (List.range 9).map (fun i =>
        ((positions.getD i (0, 0, 0)).1,
         (positions.getD i (0, 0, 0)).2.1 - 10,
         (positions.getD i (0, 0, 0)).2.2)) := by
  have hsplit : addTabs positions indices 8 verticalSegments 0 10 =
      (positions ++ bottomTabVertices positions 9 10,
       indices ++ bottomTabIndices positions.length 8) := by
    unfold addTabs
    norm_num
  rw [hsplit]
  refine ⟨?_, ?_, List.take_left _ _, List.take_left _ _, ?_⟩
  · simp [bottomTabVertices_length]
  · simp [bottomTabIndices_length]
  · rw [List.drop_left]
    rfl

/-! ### Configuration store claim theorems -/

/-- Claim C8: exporting any VaseParameters value and importing the produced
configuration reproduces the parameter set field-by-field, regardless of the
store's current parameters. -/
theorem export_import_roundTrip (p current : VaseParameters) :
    importConfiguration (some (exportConfiguration p)) current = p := rfl

/-- Claim C9: importing a string that fails to parse leaves the store's
parameters exactly unchanged. -/
theorem importConfiguration_parse_failure (current : VaseParameters) :
    importConfiguration Option.none current = current := rfl

end VaseDesigner
